import Mathlib

/-!
Verification of the signaling layer of this repository (the message codec in
`src/aiortc/contrib/signaling.py`, the SigV4-style URL signer in
`examples/videostream-cli/cli.py`, the four signaling transports, and the
negotiation loop `run` of `examples/videostream-cli/cli.py`).

Modelling conventions.
* Python's `json.dumps` / `json.loads` (standard library, outside this
  repository) are treated as a faithful external serialization layer: the
  embedding works with JSON document values (`Json` below).  A wire string
  whose `json.loads` fails (malformed JSON) is represented by `none` at the
  boundary of `object_from_string`.
* Fallible Python code is embedded in `Except PyErr`; every `PyErr`
  constructor names the Python exception class raised at the corresponding
  source point.
* `hashlib.sha256` / `hmac` (standard library) are abstracted as a
  `HmacModel` parameter; the signer's structure around them is embedded
  exactly.
-/

mutual
/-- A JSON document value: the result of `json.loads` / argument of
`json.dumps`.  Arrays do not occur in any wire message of this repository,
so they are omitted; every other shape a decoded value can take is present.
Object fields are a first-class list (`JsonFields`) so that equality is
derivable. -/
inductive Json where
  | null : Json
  | bool : Bool → Json
  | num : Int → Json
  | str : String → Json
  | obj : JsonFields → Json
deriving DecidableEq

inductive JsonFields where
  | nil : JsonFields
  | cons (key : String) (value : Json) (rest : JsonFields) : JsonFields
deriving DecidableEq
end

/-- Build an object document from an association list. -/
def Json.mkObj : List (String × Json) → Json :=
  fun l => .obj (go l)
where
  go : List (String × Json) → JsonFields
    | [] => .nil
    | (k, v) :: t => .cons k v (go t)

/-- The association list of an object's fields. -/
def JsonFields.toList : JsonFields → List (String × Json)
  | .nil => []
  | .cons k v rest => (k, v) :: rest.toList

/-- Python exceptions raised by the embedded code paths, plus the spec's
`DecodeError` (raised only by the spec-modelled routed-dialect codec; the
plain-dialect code of `signaling.py` has no such class and raises only the
native exceptions). -/
inductive PyErr where
  | jsonDecodeError : PyErr
  | keyError : PyErr
  | typeError : PyErr
  | attributeError : PyErr
  | indexError : PyErr
  | assertionError : PyErr
  | decodeError : PyErr
deriving DecidableEq

/-- Python truthiness of a JSON-decoded value (used by
`message["candidate"]` in the guard of `object_from_string`). -/
def Json.truthy : Json → Bool
  | .null => false
  | .bool b => b
  | .num n => n != 0
  | .str s => s != ""
  | .obj .nil => false
  | .obj (.cons ..) => true

/-- `d[k]` on a Python dict built by `json.loads`: with duplicate keys in the
JSON text the last occurrence wins, hence the lookup takes the last match. -/
def dictGet (fields : List (String × Json)) (k : String) : Option Json :=
  ((fields.filter (fun p => p.1 = k)).getLast?).map Prod.snd

/-- `RTCSessionDescription.type`: exactly `"offer"` or `"answer"` for the
messages the codec round-trips (spec data model: `kind: Offer|Answer`). -/
inductive SdpKind where
  | offer : SdpKind
  | answer : SdpKind
deriving DecidableEq

def SdpKind.toType : SdpKind → String
  | .offer => "offer"
  | .answer => "answer"

/-- The `NegotiationMessage` tagged union of the spec, as realised by the
objects the codec of `signaling.py` handles: `RTCSessionDescription`,
`RTCIceCandidate` and the `BYE` sentinel.  `body` of an ICE candidate is its
SDP candidate-line text (the part after the `candidate:` prefix); `sdpMid`
and `sdpMLineIndex` are the fields set separately by the codec. -/
inductive NegotiationMessage where
  | sessionDescription (sdp : String) (kind : SdpKind)
  | iceCandidate (body : String) (sdpMid : String) (sdpMLineIndex : Int)
  | bye
deriving DecidableEq

/-- Modelled from the spec: `aiortc.sdp.candidate_to_sdp` is not part of this
repository (only `aiortc/contrib` is in the source tree).  The spec treats the
SDP candidate line as an opaque canonical serialization carried in the
candidate, so the serializer is the candidate-line text itself. -/
def candidate_to_sdp (body : String) : String := body

/-- Modelled from the spec: `aiortc.sdp.candidate_from_sdp` is not part of
this repository.  Inverse of `candidate_to_sdp`: the parsed candidate keeps
the candidate-line text. -/
def candidate_from_sdp (s : String) : String := s

/-- The JSON document `object_to_string` builds for a negotiation message
(`signaling.py` lines 149-162); `json.dumps(message, sort_keys=True)` emits
the keys in the sorted order listed here. -/
def object_to_json : NegotiationMessage → Json
  | .sessionDescription sdp kind =>
      Json.mkObj [("sdp", .str sdp), ("type", .str kind.toType)]
  | .iceCandidate body mid idx =>
      Json.mkObj [("candidate", .str ("candidate:" ++ candidate_to_sdp body)),
                  ("id", .str mid),
                  ("label", .num idx),
                  ("type", .str "candidate")]
  | .bye => Json.mkObj [("type", .str "bye")]

/-- `object_to_string(obj)` (`signaling.py` lines 149-162).  The argument is
`None` (`Option.none`) or a negotiation message; for any argument that is
neither an `RTCSessionDescription` nor an `RTCIceCandidate` the code runs
`assert obj is BYE`, so `None` raises `AssertionError`. -/
def object_to_string : Option NegotiationMessage → Except PyErr Json
  | some m => .ok (object_to_json m)
  | none => .error .assertionError

/-- `s.split(":", 1)` has a second component exactly when `':'` occurs in
`s`; this returns that component (the text after the first colon). -/
def dropThroughChar (sep : Char) : List Char → Option (List Char)
  | [] => none
  | c :: rest => if c = sep then some rest else dropThroughChar sep rest

/-- `object_from_string` on an already-`json.loads`-decoded document
(`signaling.py` lines 136-146), translated branch by branch:
* non-dict documents raise `TypeError` at `message["type"]`, a missing
  `"type"` key raises `KeyError`;
* `type` in `["answer", "offer"]`: `RTCSessionDescription(**message)` — the
  constructor (external to this tree, modelled from the spec's
  `SessionDescription{sdp: string, kind}`) requires the keyword set to be
  exactly `sdp`/`type` with a string `sdp`, else `TypeError`;
* `type == "candidate"` with a truthy `message["candidate"]`:
  `message["candidate"].split(":", 1)[1]` raises `AttributeError` on a
  non-string and `IndexError` when no colon occurs, then `candidate_from_sdp`
  parses the tail and `message["id"]` / `message["label"]` (required keys,
  spec types string / uint16) populate `sdpMid` / `sdpMLineIndex`;
* `type == "candidate"` with a falsy candidate value, and every unrecognized
  `type` value, fall off the `if`/`elif` chain: the function returns `None`.
-/
def object_from_json (j : Json) : Except PyErr (Option NegotiationMessage) :=
  match j with
  | .obj fobj =>
    let fields := fobj.toList
    match dictGet fields "type" with
    | none => .error .keyError
    | some t =>
      if t = .str "answer" ∨ t = .str "offer" then
        if fields.all (fun p => p.1 = "sdp" ∨ p.1 = "type") then
          match dictGet fields "sdp" with
          | some (.str sdp) =>
              .ok (some (.sessionDescription sdp
                (if t = .str "offer" then .offer else .answer)))
          | some _ => .error .typeError
          | none => .error .typeError
        else .error .typeError
      else if t = .str "candidate" then
        match dictGet fields "candidate" with
        | none => .error .keyError
        | some c =>
          if c.truthy then
            match c with
            | .str s =>
              match dropThroughChar ':' s.data with
              | none => .error .indexError
              | some rest =>
                let body := candidate_from_sdp (String.mk rest)
                match dictGet fields "id" with
                | none => .error .keyError
                | some (.str mid) =>
                  match dictGet fields "label" with
                  | none => .error .keyError
                  | some (.num idx) => .ok (some (.iceCandidate body mid idx))
                  | some _ => .error .typeError
                | some _ => .error .typeError
            | _ => .error .attributeError
          else .ok none
      else if t = .str "bye" then .ok (some .bye)
      else .ok none
  | _ => .error .typeError

/-- `object_from_string(message_str)` (`signaling.py` lines 136-146) with the
external `json.loads` layer at its boundary: a wire string that is malformed
JSON (`none`) raises `json.JSONDecodeError`; otherwise the decoded document
is dispatched by `object_from_json`. -/
def object_from_string : Option Json → Except PyErr (Option NegotiationMessage)
  | none => .error .jsonDecodeError
  | some j => object_from_json j

instance {ε α : Type} [DecidableEq ε] [DecidableEq α] : DecidableEq (Except ε α) :=
  fun a b =>
    match a, b with
    | .ok x, .ok y =>
        if h : x = y then isTrue (by rw [h]) else isFalse (by simp [h])
    | .error x, .error y =>
        if h : x = y then isTrue (by rw [h]) else isFalse (by simp [h])
    | .ok _, .error _ => isFalse (by simp)
    | .error _, .ok _ => isFalse (by simp)

example : object_to_string (some .bye) = .ok (Json.mkObj [("type", .str "bye")]) := rfl
example : object_from_string (some (Json.mkObj [("type", .str "bye")])) = .ok (some .bye) := by decide
example : object_from_string (some (Json.mkObj [("type", .str "frobnicate")])) = .ok none := by decide
example :
    object_from_string (some (object_to_json (.sessionDescription "v=0" .offer)))
      = .ok (some (.sessionDescription "v=0" .offer)) := by decide
example :
    object_from_string (some (object_to_json (.iceCandidate "1 1 udp 1 h 1 typ host" "0" 0)))
      = .ok (some (.iceCandidate "1 1 udp 1 h 1 typ host" "0" 0)) := by decide

theorem dropThroughChar_append (sep : Char) (pre rest : List Char) (h : sep ∉ pre) :
    dropThroughChar sep (pre ++ sep :: rest) = some rest := by
  induction pre with
  | nil => simp [dropThroughChar]
  | cons c t ih =>
      simp only [List.mem_cons, not_or] at h
      simp [dropThroughChar, Ne.symm h.1, ih h.2]

theorem plain_round_trip (m : NegotiationMessage) :
    (object_to_string (some m)).bind (fun j => object_from_string (some j))
      = .ok (some m) := by
  cases m with
  | bye => rfl
  | sessionDescription sdp kind =>
      cases kind <;>
        simp [object_to_string, object_to_json, object_from_string, object_from_json,
              Json.mkObj, Json.mkObj.go, JsonFields.toList, dictGet, List.filter,
              SdpKind.toType, Except.bind]
  | iceCandidate body mid idx =>
      have hne : ("candidate:" ++ body) ≠ "" := by
        simp [String.ext_iff, String.data_append]
      simp [object_to_string, object_to_json, object_from_string, object_from_json,
            Json.mkObj, Json.mkObj.go, JsonFields.toList, dictGet, List.filter,
            Json.truthy, hne, dropThroughChar, candidate_from_sdp, candidate_to_sdp,
            Except.bind]

/-- Routing metadata of the routed dialect (spec §3 `RoutedMessage`):
`senderId` with an optional `recipientId`. -/
structure Routing where
  senderClientId : String
  recipientClientId : Option String
deriving DecidableEq

/-- Modelled from the spec: the `action` tag of the routed envelope (§6):
`SDP_OFFER`, `SDP_ANSWER`, `ICE_CANDIDATE` or `BYE` according to the
message variant. -/
def routedAction : NegotiationMessage → String
  | .sessionDescription _ .offer => "SDP_OFFER"
  | .sessionDescription _ .answer => "SDP_ANSWER"
  | .iceCandidate .. => "ICE_CANDIDATE"
  | .bye => "BYE"

/-- Modelled from the spec: the routed-dialect encoder (§4.1, §6) — no code
of this dialect is present under `src/`.  The envelope carries `action`,
`senderClientId`, `recipientClientId` (absent when broadcasting) and
`messagePayload`; on the wire `messagePayload` is the base64 of the inner
plain-dialect JSON text, and base64/`json.dumps` being external stdlib
codecs the field holds the inner document itself here. -/
def encode_routed (m : NegotiationMessage) (r : Routing) : Json :=
  Json.mkObj ([("action", .str (routedAction m)),
               ("senderClientId", .str r.senderClientId)]
              ++ (match r.recipientClientId with
                  | some rc => [("recipientClientId", .str rc)]
                  | none => [])
              ++ [("messagePayload", object_to_json m)])

/-- Modelled from the spec: the routed-dialect decoder (§4.1, §6).  A
non-envelope document, a missing or unrecognized `action`, a missing
`senderClientId` or `messagePayload`, an ill-typed `recipientClientId`, or
an inner payload the plain-dialect decoder rejects, all fail with the
spec's `DecodeError`. -/
def decode_routed (j : Json) : Except PyErr (NegotiationMessage × Routing) :=
  match j with
  | .obj fobj =>
    let fields := fobj.toList
    match dictGet fields "action", dictGet fields "senderClientId" with
    | some (.str action), some (.str sender) =>
      if action = "SDP_OFFER" ∨ action = "SDP_ANSWER" ∨
          action = "ICE_CANDIDATE" ∨ action = "BYE" then
        match (match dictGet fields "recipientClientId" with
               | none => Except.ok (none : Option String)
               | some (.str rc) => Except.ok (some rc)
               | some _ => Except.error PyErr.decodeError) with
        | .error e => .error e
        | .ok rcp =>
          match dictGet fields "messagePayload" with
          | none => .error .decodeError
          | some payload =>
            match object_from_json payload with
            | .ok (some m) => .ok (m, ⟨sender, rcp⟩)
            | _ => .error .decodeError
      else .error .decodeError
    | _, _ => .error .decodeError
  | _ => .error .decodeError

/-- The inner (plain-dialect) codec is a two-way mapping on documents. -/
theorem object_from_json_object_to_json (m : NegotiationMessage) :
    object_from_json (object_to_json m) = .ok (some m) := by
  have h := plain_round_trip m
  simpa [object_to_string, object_from_string, Except.bind] using h

theorem routed_round_trip (m : NegotiationMessage) (r : Routing) :
    decode_routed (encode_routed m r) = .ok (m, r) := by
  obtain ⟨sender, rcp⟩ := r
  have hinner := object_from_json_object_to_json m
  cases m with
  | bye =>
      cases rcp <;>
        simp [encode_routed, decode_routed, routedAction, Json.mkObj, Json.mkObj.go,
              JsonFields.toList, dictGet, List.filter, hinner]
  | sessionDescription sdp kind =>
      cases kind <;> cases rcp <;>
        simp [encode_routed, decode_routed, routedAction, Json.mkObj, Json.mkObj.go,
              JsonFields.toList, dictGet, List.filter, hinner]
  | iceCandidate body mid idx =>
      cases rcp <;>
        simp [encode_routed, decode_routed, routedAction, Json.mkObj, Json.mkObj.go,
              JsonFields.toList, dictGet, List.filter, hinner]

/-- C1: For every constructible `NegotiationMessage` m (a session description
of kind offer or answer, an ICE candidate, or the Bye sentinel), decoding the
encoding of m yields m back, in the plain wire dialect
(`object_from_string` after `object_to_string` of `signaling.py`) and in the
routed wire dialect (the spec-modelled envelope codec). -/
theorem C1_codec_round_trip :
    (∀ m : NegotiationMessage,
        (object_to_string (some m)).bind (fun j => object_from_string (some j))
          = .ok (some m))
    ∧ (∀ (m : NegotiationMessage) (r : Routing),
        decode_routed (encode_routed m r) = .ok (m, r)) :=
  ⟨plain_round_trip, routed_round_trip⟩

/-- C4 counterexample: a wire object with the unrecognized type value
`"frobnicate"` makes `object_from_string` fall off its `if`/`elif` chain and
return `None` — a normal return, not an error result as the claim states. -/
theorem C4_counterexample :
    object_from_string (some (Json.mkObj [("type", Json.str "frobnicate")]))
      = .ok none := by decide

/-- C4 amended: decode fails on malformed JSON, on a non-object document,
and on a missing or ill-formed required field for a declared
offer/answer/candidate type, but with the native Python exceptions —
`json.JSONDecodeError`, `KeyError`, `TypeError`, and for the candidate
value `IndexError` (a truthy string with no colon) or `AttributeError` (a
truthy non-string) — there is no `DecodeError` class carrying the raw
payload; and an unrecognized `type` value, or a candidate message whose
`candidate` field is falsy, yields a normal `None` return, not an error. -/
theorem C4_decode_failure_modes :
    (object_from_string none = .error .jsonDecodeError)
    ∧ (∀ j : Json, (∀ fobj, j ≠ .obj fobj) →
        object_from_string (some j) = .error .typeError)
    ∧ (∀ fobj, dictGet (JsonFields.toList fobj) "type" = none →
        object_from_string (some (.obj fobj)) = .error .keyError)
    ∧ (∀ k : SdpKind,
        object_from_string (some (Json.mkObj [("type", Json.str (SdpKind.toType k))]))
          = .error .typeError)
    ∧ (object_from_string (some (Json.mkObj [("type", Json.str "candidate")]))
        = .error .keyError)
    ∧ (object_from_string (some (Json.mkObj
          [("candidate", Json.str "x"), ("type", Json.str "candidate")]))
        = .error .indexError)
    ∧ (object_from_string (some (Json.mkObj
          [("candidate", Json.num 5), ("type", Json.str "candidate")]))
        = .error .attributeError)
    ∧ (object_from_string (some (Json.mkObj
          [("candidate", Json.str ""), ("type", Json.str "candidate")]))
        = .ok none)
    ∧ (∀ s : String, s ≠ "offer" → s ≠ "answer" → s ≠ "candidate" → s ≠ "bye" →
        object_from_string (some (Json.mkObj [("type", Json.str s)])) = .ok none) := by
  refine ⟨rfl, ?_, ?_, ?_, by decide, by decide, by decide, by decide, ?_⟩
  · intro j h
    cases j with
    | obj fobj => exact absurd rfl (h fobj)
    | null => rfl
    | bool b => rfl
    | num n => rfl
    | str s => rfl
  · intro fobj h
    simp [object_from_string, object_from_json, h]
  · intro k
    cases k <;> decide
  · intro s h1 h2 h3 h4
    simp [object_from_string, object_from_json, Json.mkObj, Json.mkObj.go,
          JsonFields.toList, dictGet, List.filter, h1, h2, h3, h4]

/-- Witness for `C4_decode_failure_modes`: its hypothesis-bearing conjuncts
discharged at the concrete inputs `Json.null` and type `"xyz"`. -/
theorem C4_decode_failure_modes_witness :
    object_from_string (some Json.null) = .error .typeError
    ∧ object_from_string (some (Json.mkObj [("type", Json.str "xyz")])) = .ok none :=
  ⟨C4_decode_failure_modes.2.1 Json.null (fun fobj h => Json.noConfusion h),
   C4_decode_failure_modes.2.2.2.2.2.2.2.2 "xyz" (by decide) (by decide) (by decide)
     (by decide)⟩

/-- The stream pair the asyncio environment hands over when a connection
completes (the `(reader, writer)` of `client_connected` /
`open_connection`); streams are abstract tokens. -/
structure ConnEnv where
  rd : Nat
  wr : Nat
deriving DecidableEq

/-- State of `TcpSocketSignaling`: the `_server`, `_reader` and `_writer`
attributes (each `None` or a live handle). -/
structure TcpSocketSignaling where
  server : Option Unit
  reader : Option Nat
  writer : Option Nat
deriving DecidableEq

/-- `TcpSocketSignaling.__init__`. -/
def TcpSocketSignaling.init : TcpSocketSignaling := ⟨none, none, none⟩

/-- `async def connect(self): pass` (`signaling.py` lines 207-208). -/
def TcpSocketSignaling.connect (st : TcpSocketSignaling) : TcpSocketSignaling := st

/-- `_connect(server)` (`signaling.py` lines 210-230): returns at once when
`_writer` is already set; otherwise as the server it starts
`asyncio.start_server` and suspends on `connected.wait()` until a peer
connects, as a client it opens the connection — either way the environment
supplies the established stream pair. -/
def TcpSocketSignaling._connect (st : TcpSocketSignaling) (server : Bool)
    (env : ConnEnv) : TcpSocketSignaling :=
  if st.writer.isSome then st
  else if server then ⟨some (), some env.rd, some env.wr⟩
  else { st with reader := some env.rd, writer := some env.wr }

/-- `send(descr)` (`signaling.py` lines 250-253): `await self._connect(True)`,
encode, write one newline-framed message.  The returned list holds the
documents written to the stream by this call. -/
def TcpSocketSignaling.send (st : TcpSocketSignaling) (env : ConnEnv)
    (descr : Option NegotiationMessage) :
    Except PyErr (TcpSocketSignaling × List Json) :=
  let st1 := st._connect true env
  match object_to_string descr with
  | .error e => .error e
  | .ok j => .ok (st1, [j])

/-- `receive()` (`signaling.py` lines 242-248): `await self._connect(False)`,
then `readuntil`; a peer disconnect (`IncompleteReadError`, the `none` line)
returns `None`, otherwise the line's `json.loads` document is decoded. -/
def TcpSocketSignaling.receive (st : TcpSocketSignaling) (env : ConnEnv)
    (line : Option (Option Json)) :
    Except PyErr (TcpSocketSignaling × Option NegotiationMessage) :=
  let st1 := st._connect false env
  match line with
  | none => .ok (st1, none)
  | some doc =>
    match object_from_string doc with
    | .error e => .error e
    | .ok m => .ok (st1, m)

/-- `close()` (`signaling.py` lines 232-240): when a writer exists, send
`BYE`, close the writer and null both streams; then close the server if one
exists. -/
def TcpSocketSignaling.close (st : TcpSocketSignaling) (env : ConnEnv) :
    Except PyErr (TcpSocketSignaling × List Json) :=
  match (if st.writer.isSome then
           match st.send env (some .bye) with
           | .error e => Except.error e
           | .ok (st1, out) =>
               Except.ok ({ st1 with reader := none, writer := none }, out)
         else Except.ok (st, [])) with
  | .error e => .error e
  | .ok (st2, out) =>
      if st2.server.isSome then .ok ({ st2 with server := none }, out)
      else .ok (st2, out)

/-- State of `UnixSocketSignaling` (`signaling.py` lines 256-308): the same
attributes as the TCP carrier plus whether `close` has run `os.unlink` on
the socket path. -/
structure UnixSocketSignaling where
  server : Option Unit
  reader : Option Nat
  writer : Option Nat
  pathUnlinked : Bool
deriving DecidableEq

/-- `UnixSocketSignaling.__init__` (socket file present at `_path`). -/
def UnixSocketSignaling.init : UnixSocketSignaling := ⟨none, none, none, false⟩

/-- `async def connect(self): pass` (`signaling.py` lines 263-264). -/
def UnixSocketSignaling.connect (st : UnixSocketSignaling) : UnixSocketSignaling := st

/-- `_connect(server)` (`signaling.py` lines 266-284), as for the TCP carrier
but over `start_unix_server` / `open_unix_connection`. -/
def UnixSocketSignaling._connect (st : UnixSocketSignaling) (server : Bool)
    (env : ConnEnv) : UnixSocketSignaling :=
  if st.writer.isSome then st
  else if server then { st with server := some (), reader := some env.rd, writer := some env.wr }
  else { st with reader := some env.rd, writer := some env.wr }

/-- `send(descr)` (`signaling.py` lines 305-308). -/
def UnixSocketSignaling.send (st : UnixSocketSignaling) (env : ConnEnv)
    (descr : Option NegotiationMessage) :
    Except PyErr (UnixSocketSignaling × List Json) :=
  let st1 := st._connect true env
  match object_to_string descr with
  | .error e => .error e
  | .ok j => .ok (st1, [j])

/-- `receive()` (`signaling.py` lines 297-303). -/
def UnixSocketSignaling.receive (st : UnixSocketSignaling) (env : ConnEnv)
    (line : Option (Option Json)) :
    Except PyErr (UnixSocketSignaling × Option NegotiationMessage) :=
  let st1 := st._connect false env
  match line with
  | none => .ok (st1, none)
  | some doc =>
    match object_from_string doc with
    | .error e => .error e
    | .ok m => .ok (st1, m)

/-- `close()` (`signaling.py` lines 286-295): as for TCP, and when a server
exists additionally `os.unlink(self._path)`. -/
def UnixSocketSignaling.close (st : UnixSocketSignaling) (env : ConnEnv) :
    Except PyErr (UnixSocketSignaling × List Json) :=
  match (if st.writer.isSome then
           match st.send env (some .bye) with
           | .error e => Except.error e
           | .ok (st1, out) =>
               Except.ok ({ st1 with reader := none, writer := none }, out)
         else Except.ok (st, [])) with
  | .error e => .error e
  | .ok (st2, out) =>
      if st2.server.isSome then .ok ({ st2 with server := none, pathUnlinked := true }, out)
      else .ok (st2, out)

/-- State of `CopyAndPasteSignaling` (`signaling.py` lines 165-195): the
`_reader` attribute (the write pipe is stdout, always present). -/
structure CopyAndPasteSignaling where
  reader : Option Nat
deriving DecidableEq

def CopyAndPasteSignaling.init : CopyAndPasteSignaling := ⟨none⟩

/-- `connect()` (`signaling.py` lines 172-178): wraps stdin in a
`StreamReader`. -/
def CopyAndPasteSignaling.connect (_st : CopyAndPasteSignaling) (env : ConnEnv) :
    CopyAndPasteSignaling := ⟨some env.rd⟩

/-- `send(descr)` (`signaling.py` lines 192-196): encode and print one
message to stdout. -/
def CopyAndPasteSignaling.send (st : CopyAndPasteSignaling)
    (descr : Option NegotiationMessage) :
    Except PyErr (CopyAndPasteSignaling × List Json) :=
  match object_to_string descr with
  | .error e => .error e
  | .ok j => .ok (st, [j])

/-- `receive()` (`signaling.py` lines 186-190): read one line from stdin and
decode it. -/
def CopyAndPasteSignaling.receive (st : CopyAndPasteSignaling) (line : Option Json) :
    Except PyErr (CopyAndPasteSignaling × Option NegotiationMessage) :=
  match object_from_string line with
  | .error e => .error e
  | .ok m => .ok (st, m)

/-- `close()` (`signaling.py` lines 180-184): when the reader exists, send
`BYE`, close the read transport and null the reader. -/
def CopyAndPasteSignaling.close (st : CopyAndPasteSignaling) :
    Except PyErr (CopyAndPasteSignaling × List Json) :=
  if st.reader.isSome then
    match st.send (some .bye) with
    | .error e => .error e
    | .ok (_, out) => .ok (⟨none⟩, out)
  else .ok (st, [])

/-- The external websocket connection object: its `.open` attribute, true
from `create_connection` until `.close()`. -/
structure WebsocketHandle where
  isOpen : Bool
deriving DecidableEq

/-- State of `WebsocketSignaling` (`signaling.py` lines 311-369): the
`_websocket` attribute. -/
structure WebsocketSignaling where
  websocket : Option WebsocketHandle
deriving DecidableEq

def WebsocketSignaling.init : WebsocketSignaling := ⟨none⟩

/-- `send(descr)` (`signaling.py` lines 367-369): `object_to_string(descr)`
first (so a `None` payload hits the codec's `assert obj is BYE`), then one
frame written to the socket. -/
def WebsocketSignaling.send (st : WebsocketSignaling)
    (descr : Option NegotiationMessage) :
    Except PyErr (WebsocketSignaling × List Json) :=
  match object_to_string descr with
  | .error e => .error e
  | .ok j =>
    match st.websocket with
    | none => .error .attributeError
    | some _ => .ok (st, [j])

/-- `receive()` (`signaling.py` lines 356-365): `recv` one frame
(disconnection returns `None`), decode it. -/
def WebsocketSignaling.receive (st : WebsocketSignaling)
    (line : Option (Option Json)) :
    Except PyErr (WebsocketSignaling × Option NegotiationMessage) :=
  match st.websocket with
  | none => .error .attributeError
  | some _ =>
    match line with
    | none => .ok (st, none)
    | some doc =>
      match object_from_string doc with
      | .error e => .error e
      | .ok m => .ok (st, m)

/-- `close()` (`signaling.py` lines 351-354): when `_websocket` exists and
its `.open` is `True`, `await self.send(None)` then close the socket. -/
def WebsocketSignaling.close (st : WebsocketSignaling) :
    Except PyErr (WebsocketSignaling × List Json) :=
  match st.websocket with
  | some h =>
    if h.isOpen then
      match st.send none with
      | .error e => .error e
      | .ok (_, out) => .ok (⟨some ⟨false⟩⟩, out)
    else .ok (st, [])
  | none => .ok (st, [])

/-- A Python argument value at the `run`/transport boundary of
`cli.py`: a negotiation message (or `None`), or a client-id string. -/
inductive PyVal where
  | obj : Option NegotiationMessage → PyVal
  | s : String → PyVal
deriving DecidableEq

/-- Python call binding for a method declared `async def f(self, descr)`
(one positional parameter after `self`, as all four transports declare
`send`): binding succeeds for exactly one positional argument and no
keywords, or no positional and the single keyword `descr`; any other
combination — in particular any extra keyword argument — raises `TypeError`
before the body runs. -/
def bindOneArg (pname : String) (pos : List PyVal) (kw : List (String × PyVal)) :
    Except PyErr PyVal :=
  match pos, kw with
  | [v], [] => .ok v
  | [], [(k, v)] => if k = pname then .ok v else .error .typeError
  | _, _ => .error .typeError

/-- A `signaling.send(...)` call on the TCP transport with Python call
semantics.  A bound client-id string in `descr` position would reach
`object_to_string`'s `assert obj is BYE` and fail it. -/
def TcpSocketSignaling.sendCall (st : TcpSocketSignaling) (env : ConnEnv)
    (pos : List PyVal) (kw : List (String × PyVal)) :
    Except PyErr (TcpSocketSignaling × List Json) :=
  match bindOneArg "descr" pos kw with
  | .error e => .error e
  | .ok (.obj o) => st.send env o
  | .ok (.s _) => .error .assertionError

/-- A `signaling.send(...)` call on the Unix-socket transport. -/
def UnixSocketSignaling.sendCall (st : UnixSocketSignaling) (env : ConnEnv)
    (pos : List PyVal) (kw : List (String × PyVal)) :
    Except PyErr (UnixSocketSignaling × List Json) :=
  match bindOneArg "descr" pos kw with
  | .error e => .error e
  | .ok (.obj o) => st.send env o
  | .ok (.s _) => .error .assertionError

/-- A `signaling.send(...)` call on the copy-and-paste transport. -/
def CopyAndPasteSignaling.sendCall (st : CopyAndPasteSignaling)
    (pos : List PyVal) (kw : List (String × PyVal)) :
    Except PyErr (CopyAndPasteSignaling × List Json) :=
  match bindOneArg "descr" pos kw with
  | .error e => .error e
  | .ok (.obj o) => st.send o
  | .ok (.s _) => .error .assertionError

/-- A `signaling.send(...)` call on the WebSocket transport. -/
def WebsocketSignaling.sendCall (st : WebsocketSignaling)
    (pos : List PyVal) (kw : List (String × PyVal)) :
    Except PyErr (WebsocketSignaling × List Json) :=
  match bindOneArg "descr" pos kw with
  | .error e => .error e
  | .ok (.obj o) => st.send o
  | .ok (.s _) => .error .assertionError

/-- `obj, remoteClientId = await signaling.receive()` (cli.py line 332) —
Python pair unpacking of the value `receive` returns.  None of its possible
results (`None`, the `BYE` sentinel `object()`, an `RTCSessionDescription`,
an `RTCIceCandidate`) is an iterable of two elements, so the unpacking
raises `TypeError` in every case. -/
def unpack2 : Option NegotiationMessage → Except PyErr (PyVal × PyVal)
  | none => .error .typeError
  | some (.sessionDescription _ _) => .error .typeError
  | some (.iceCandidate ..) => .error .typeError
  | some .bye => .error .typeError

/-- The loop head of `run` against the TCP transport: receive, then
pair-unpack the result. -/
def TcpSocketSignaling.receiveUnpack (st : TcpSocketSignaling) (env : ConnEnv)
    (line : Option (Option Json)) :
    Except PyErr (TcpSocketSignaling × (PyVal × PyVal)) :=
  match st.receive env line with
  | .error e => .error e
  | .ok (st1, v) =>
    match unpack2 v with
    | .error e => .error e
    | .ok p => .ok (st1, p)

/-- The loop head of `run` against the Unix-socket transport. -/
def UnixSocketSignaling.receiveUnpack (st : UnixSocketSignaling) (env : ConnEnv)
    (line : Option (Option Json)) :
    Except PyErr (UnixSocketSignaling × (PyVal × PyVal)) :=
  match st.receive env line with
  | .error e => .error e
  | .ok (st1, v) =>
    match unpack2 v with
    | .error e => .error e
    | .ok p => .ok (st1, p)

/-- The loop head of `run` against the copy-and-paste transport. -/
def CopyAndPasteSignaling.receiveUnpack (st : CopyAndPasteSignaling)
    (line : Option Json) :
    Except PyErr (CopyAndPasteSignaling × (PyVal × PyVal)) :=
  match st.receive line with
  | .error e => .error e
  | .ok (st1, v) =>
    match unpack2 v with
    | .error e => .error e
    | .ok p => .ok (st1, p)

/-- The loop head of `run` against the WebSocket transport. -/
def WebsocketSignaling.receiveUnpack (st : WebsocketSignaling)
    (line : Option (Option Json)) :
    Except PyErr (WebsocketSignaling × (PyVal × PyVal)) :=
  match st.receive line with
  | .error e => .error e
  | .ok (st1, v) =>
    match unpack2 v with
    | .error e => .error e
    | .ok p => .ok (st1, p)

/-- Whether an embedded Python computation returned normally. -/
def exceptIsOk {ε α : Type} : Except ε α → Bool
  | .ok _ => true
  | .error _ => false

theorem unpack2_always_type_error (v : Option NegotiationMessage) :
    unpack2 v = .error .typeError := by
  cases v with
  | none => rfl
  | some m => cases m <;> rfl

/-- C10: every transport's `receive()` returns a single decoded message (or
nil) and never a (message, sender) pair — pair-unpacking its result raises
`TypeError` in every case — and every transport's `send` binds exactly one
`descr` argument, so `run`'s routed calls carrying a `senderClientId` or
`recipientClientId` keyword raise `TypeError` instead of performing the
exchange, and the loop-head `obj, remoteClientId = await
signaling.receive()` never returns normally. -/
theorem C10_run_call_sites_type_error :
    (∀ v : Option NegotiationMessage, unpack2 v = .error .typeError)
    ∧ (∀ (st : TcpSocketSignaling) (env : ConnEnv) (o : Option NegotiationMessage)
          (k : String) (w : PyVal),
        st.sendCall env [.obj o] [(k, w)] = .error .typeError)
    ∧ (∀ (st : UnixSocketSignaling) (env : ConnEnv) (o : Option NegotiationMessage)
          (k : String) (w : PyVal),
        st.sendCall env [.obj o] [(k, w)] = .error .typeError)
    ∧ (∀ (st : CopyAndPasteSignaling) (o : Option NegotiationMessage)
          (k : String) (w : PyVal),
        st.sendCall [.obj o] [(k, w)] = .error .typeError)
    ∧ (∀ (st : WebsocketSignaling) (o : Option NegotiationMessage)
          (k : String) (w : PyVal),
        st.sendCall [.obj o] [(k, w)] = .error .typeError)
    ∧ (∀ (st : TcpSocketSignaling) (env : ConnEnv) (line : Option (Option Json)),
        exceptIsOk (st.receiveUnpack env line) = false)
    ∧ (∀ (st : UnixSocketSignaling) (env : ConnEnv) (line : Option (Option Json)),
        exceptIsOk (st.receiveUnpack env line) = false)
    ∧ (∀ (st : CopyAndPasteSignaling) (line : Option Json),
        exceptIsOk (st.receiveUnpack line) = false)
    ∧ (∀ (st : WebsocketSignaling) (line : Option (Option Json)),
        exceptIsOk (st.receiveUnpack line) = false) := by
  refine ⟨unpack2_always_type_error, fun _ _ _ _ _ => rfl, fun _ _ _ _ _ => rfl,
          fun _ _ _ _ => rfl, fun _ _ _ _ => rfl, ?_, ?_, ?_, ?_⟩
  · intro st env line
    cases line with
    | none => rfl
    | some doc =>
        cases h : object_from_string doc with
        | error e =>
            simp [TcpSocketSignaling.receiveUnpack, TcpSocketSignaling.receive, h,
                  exceptIsOk]
        | ok m =>
            simp [TcpSocketSignaling.receiveUnpack, TcpSocketSignaling.receive, h,
                  unpack2_always_type_error, exceptIsOk]
  · intro st env line
    cases line with
    | none => rfl
    | some doc =>
        cases h : object_from_string doc with
        | error e =>
            simp [UnixSocketSignaling.receiveUnpack, UnixSocketSignaling.receive, h,
                  exceptIsOk]
        | ok m =>
            simp [UnixSocketSignaling.receiveUnpack, UnixSocketSignaling.receive, h,
                  unpack2_always_type_error, exceptIsOk]
  · intro st line
    cases h : object_from_string line with
    | error e =>
        simp [CopyAndPasteSignaling.receiveUnpack, CopyAndPasteSignaling.receive, h,
              exceptIsOk]
    | ok m =>
        simp [CopyAndPasteSignaling.receiveUnpack, CopyAndPasteSignaling.receive, h,
              unpack2_always_type_error, exceptIsOk]
  · intro st line
    cases hw : st.websocket with
    | none =>
        simp [WebsocketSignaling.receiveUnpack, WebsocketSignaling.receive, hw, exceptIsOk]
    | some h =>
        cases line with
        | none =>
            simp [WebsocketSignaling.receiveUnpack, WebsocketSignaling.receive, hw,
                  unpack2, exceptIsOk]
        | some doc =>
            cases hd : object_from_string doc with
            | error e =>
                simp [WebsocketSignaling.receiveUnpack, WebsocketSignaling.receive,
                      hw, hd, exceptIsOk]
            | ok m =>
                simp [WebsocketSignaling.receiveUnpack, WebsocketSignaling.receive,
                      hw, hd, unpack2_always_type_error, exceptIsOk]

/-- The pre-loop offerer phase of `run` (cli.py lines 323-328) against the
WebSocket transport that `__main__` wires in (cli.py line 457 forces
`args.signaling = "websocket"`): `add_tracks`, `pc.createOffer()` and
`pc.setLocalDescription(offer)` are external-engine calls that write
nothing to the transport; the single transport action before the receive
loop is `await signaling.send(offer, senderClientId="test")`. -/
def run_offer_start (st : WebsocketSignaling) (offer : NegotiationMessage) :
    Except PyErr (WebsocketSignaling × List Json) :=
  st.sendCall [PyVal.obj (some offer)] [("senderClientId", PyVal.s "test")]

/-- C5 (evaluation of the code at its failing input): for the Offerer role,
the one outbound send `run` attempts before the receive loop —
`signaling.send(offer, senderClientId="test")` — raises `TypeError` at
argument binding for every transport state and every offer, so no
`SessionDescription{kind:Offer}` is ever written to the transport. -/
theorem C5_offerer_send_type_error :
    ∀ (st : WebsocketSignaling) (offer : NegotiationMessage),
      run_offer_start st offer = .error .typeError :=
  fun _ _ => rfl

/-- C7 (evaluation of the code at its failing input): `send(None)` — the
call `WebsocketSignaling.close` makes to signal `Bye` — reaches
`object_to_string`'s `assert obj is BYE` with `None` and raises
`AssertionError`; it is not a valid no-op-payload call. -/
theorem C7_send_none_assertion :
    object_to_string none = .error .assertionError
    ∧ (∀ st : WebsocketSignaling, st.send none = .error .assertionError) :=
  ⟨rfl, fun _ => rfl⟩

/-- C6: for the copy-and-paste, TCP and Unix-socket transports, `close()`
twice from any state returns normally, the two calls together write at most
one `Bye`, and the second call is a no-op; but for the WebSocket transport
`close()` on an open socket raises `AssertionError` (its `send(None)` fails
the codec's `assert obj is BYE`), so the claim's "no error" fails there. -/
theorem C6_close_twice :
    (∀ (st : TcpSocketSignaling) (env : ConnEnv), ∃ st1 out,
        st.close env = .ok (st1, out)
        ∧ List.count (object_to_json .bye) out ≤ 1
        ∧ st1.close env = .ok (st1, []))
    ∧ (∀ (st : UnixSocketSignaling) (env : ConnEnv), ∃ st1 out,
        st.close env = .ok (st1, out)
        ∧ List.count (object_to_json .bye) out ≤ 1
        ∧ st1.close env = .ok (st1, []))
    ∧ (∀ st : CopyAndPasteSignaling, ∃ st1 out,
        st.close = .ok (st1, out)
        ∧ List.count (object_to_json .bye) out ≤ 1
        ∧ st1.close = .ok (st1, []))
    ∧ (WebsocketSignaling.close ⟨some ⟨true⟩⟩ = .error .assertionError) := by
  refine ⟨?_, ?_, ?_, rfl⟩
  · rintro ⟨srv, rd, wr⟩ env
    cases srv <;> cases wr <;>
      exact ⟨_, _, rfl, by decide, rfl⟩
  · rintro ⟨srv, rd, wr, ul⟩ env
    cases srv <;> cases wr <;>
      exact ⟨_, _, rfl, by decide, rfl⟩
  · rintro ⟨rd⟩
    cases rd <;>
      exact ⟨_, _, rfl, by decide, rfl⟩

/-- C8 counterexample: `connect()` of the TCP and Unix-socket carriers is
`pass` — after it returns on a fresh transport no channel exists (`_writer`
is still `None`), contradicting "connect() establishes the underlying
channel" and "after connect() returns, the channel exists". -/
theorem C8_counterexample :
    TcpSocketSignaling.connect TcpSocketSignaling.init = TcpSocketSignaling.init
    ∧ TcpSocketSignaling.init.writer = none
    ∧ UnixSocketSignaling.connect UnixSocketSignaling.init = UnixSocketSignaling.init
    ∧ UnixSocketSignaling.init.writer = none :=
  ⟨rfl, rfl, rfl, rfl⟩

/-- C8 amended: for both socket carriers (TCP and Unix) `connect()` is a
no-op; the channel is established lazily by `_connect` — the first `send`
establishes it in the server role (suspending on the accept wait until a
remote peer connects), the first `receive` in the client role — and once
`_writer` exists `_connect` returns immediately, so later send/receive
reuse the channel without re-establishing it. -/
theorem C8_lazy_connect :
    (∀ st : TcpSocketSignaling, st.connect = st)
    ∧ (∀ st : UnixSocketSignaling, st.connect = st)
    ∧ (∀ (st : TcpSocketSignaling) (server : Bool) (env : ConnEnv),
        st.writer.isSome = true → st._connect server env = st)
    ∧ (∀ (st : UnixSocketSignaling) (server : Bool) (env : ConnEnv),
        st.writer.isSome = true → st._connect server env = st)
    ∧ (∀ (env : ConnEnv) (m : NegotiationMessage),
        TcpSocketSignaling.init.send env (some m)
          = .ok (⟨some (), some env.rd, some env.wr⟩, [object_to_json m]))
    ∧ (∀ env : ConnEnv,
        TcpSocketSignaling.init.receive env none
          = .ok (⟨none, some env.rd, some env.wr⟩, none))
    ∧ (∀ (env : ConnEnv) (m : NegotiationMessage),
        UnixSocketSignaling.init.send env (some m)
          = .ok (⟨some (), some env.rd, some env.wr, false⟩, [object_to_json m]))
    ∧ (∀ env : ConnEnv,
        UnixSocketSignaling.init.receive env none
          = .ok (⟨none, some env.rd, some env.wr, false⟩, none)) := by
  refine ⟨fun _ => rfl, fun _ => rfl, ?_, ?_, fun _ _ => rfl, fun _ => rfl,
          fun _ _ => rfl, fun _ => rfl⟩
  · intro st server env h
    simp [TcpSocketSignaling._connect, h]
  · intro st server env h
    simp [UnixSocketSignaling._connect, h]

/-- Witness for `C8_lazy_connect`: its hypothesis-bearing conjuncts at a
concrete already-connected state. -/
theorem C8_lazy_connect_witness :
    TcpSocketSignaling._connect ⟨some (), some 0, some 1⟩ true ⟨2, 3⟩
      = ⟨some (), some 0, some 1⟩
    ∧ UnixSocketSignaling._connect ⟨some (), some 0, some 1, false⟩ false ⟨2, 3⟩
      = ⟨some (), some 0, some 1, false⟩ :=
  ⟨C8_lazy_connect.2.2.1 ⟨some (), some 0, some 1⟩ true ⟨2, 3⟩ rfl,
   C8_lazy_connect.2.2.2.1 ⟨some (), some 0, some 1, false⟩ false ⟨2, 3⟩ rfl⟩

/-- UTF-8 encoding of one character: the byte sequence `str.encode("utf-8")`
produces for it (1 to 4 bytes by code-point range). -/
def utf8Bytes (c : Char) : List Nat :=
  if c.toNat < 0x80 then [c.toNat]
  else if c.toNat < 0x800 then
    [0xC0 + c.toNat / 0x40, 0x80 + c.toNat % 0x40]
  else if c.toNat < 0x10000 then
    [0xE0 + c.toNat / 0x1000, 0x80 + (c.toNat / 0x40) % 0x40, 0x80 + c.toNat % 0x40]
  else
    [0xF0 + c.toNat / 0x40000, 0x80 + (c.toNat / 0x1000) % 0x40,
     0x80 + (c.toNat / 0x40) % 0x40, 0x80 + c.toNat % 0x40]

/-- Uppercase hexadecimal digit for `n < 16`. -/
def hexDigit (n : Nat) : Char :=
  if n < 10 then Char.ofNat (48 + n) else Char.ofNat (55 + n)

/-- The `%XX` escape of one byte, uppercase hex as `urllib.parse.quote`
emits. -/
def percentByte (b : Nat) : List Char :=
  ['%', hexDigit (b / 16), hexDigit (b % 16)]

/-- The characters `urllib.parse.quote` leaves unescaped at the two call
sites of the signer: ASCII letters, digits and `_.-~` are never quoted, and
the `safe="-_.~"` argument adds nothing beyond these. -/
def isUnreserved (c : Char) : Bool :=
  c.isAlpha || c.isDigit || c == '-' || c == '_' || c == '.' || c == '~'

/-- `urllib.parse.quote(s, safe="-_.~")`: unreserved characters pass
through, every other character is replaced by the `%XX` escapes of its
UTF-8 bytes. -/
def pyQuote (s : String) : String :=
  ⟨quoteChars s.data⟩
where
  quoteChars : List Char → List Char
    | [] => []
    | c :: rest =>
        (if isUnreserved c then [c] else ((utf8Bytes c).map percentByte).flatten)
          ++ quoteChars rest

/-- Whether `pat` is an initial segment of the second list. -/
def startsWithChars : List Char → List Char → Bool
  | [], _ => true
  | _ :: _, [] => false
  | p :: ps, c :: cs => p == c && startsWithChars ps cs

/-- `str.replace(old, new)`: every non-overlapping occurrence replaced,
left to right (the signer's one call site has the nonempty `old = "="`).
The structural `fuel` argument bounds the scan length; each step consumes
at least one character, so `fuel = l.length` never runs out. -/
def pyReplaceAux (pat rep : List Char) : Nat → List Char → List Char
  | 0, l => l
  | _ + 1, [] => []
  | fuel + 1, c :: rest =>
      if pat ≠ [] ∧ startsWithChars pat (c :: rest) = true then
        rep ++ pyReplaceAux pat rep fuel (List.drop (pat.length - 1) rest)
      else
        c :: pyReplaceAux pat rep fuel rest

def pyReplaceChars (pat rep l : List Char) : List Char :=
  pyReplaceAux pat rep l.length l

def pyReplace (s old new : String) : String :=
  ⟨pyReplaceChars old.data new.data s.data⟩

/-- Whether `pat` occurs as a contiguous run of the second list. -/
def containsSub (pat : List Char) : List Char → Bool
  | [] => startsWithChars pat []
  | c :: rest => startsWithChars pat (c :: rest) || containsSub pat rest

/-- The `hashlib.sha256` / `hmac` primitives of the Python standard library
(external to this repository), abstracted over the type `κ` of raw digests
and keys (`bytes`): `utf8` is `str.encode("utf-8")` on the initial key,
`digest` is `hmac.new(key, msg.encode("utf-8"), hashlib.sha256).digest()`,
`hexdigest` the same with `.hexdigest()`, and `sha256hex` is
`hashlib.sha256(s.encode("utf-8")).hexdigest()`. -/
structure HmacModel (κ : Type) where
  utf8 : String → κ
  digest : κ → String → κ
  hexdigest : κ → String → String
  sha256hex : String → String

/-- `getSignatureKey(key, dateStamp, regionName, serviceName)` (cli.py lines
86-91): four chained `sign` (HMAC-SHA256 digest) calls from the versioned
secret through date, region, service and the terminal string. -/
def getSignatureKey {κ : Type} (H : HmacModel κ)
    (key dateStamp regionName serviceName : String) : κ :=
  let kDate := H.digest (H.utf8 ("AWS4" ++ key)) dateStamp
  let kRegion := H.digest kDate regionName
  let kService := H.digest kRegion serviceName
  let kSigning := H.digest kService "aws4_request"
  kSigning

/-- The two signing-time failures.  The code prints a diagnostic and calls
`sys.exit()` (cli.py lines 135-141); the spec names the two exits
`MissingCredentialsError` and `IncompleteTemporaryCredentialsError`. -/
inductive SignErr where
  | missingCredentials : SignErr
  | incompleteTemporaryCredentials : SignErr
deriving DecidableEq

/-- `credential_scope` (cli.py line 122). -/
def credentialScope (datestamp region service : String) : String :=
  datestamp ++ "/" ++ region ++ "/" ++ service ++ "/" ++ "aws4_request"

/-- The fixed channel ARN the signer quotes into the query (cli.py line
150). -/
def channelARN : String :=
  "arn:aws:kinesisvideo:eu-west-2:704753930477:channel/my_test_channel/1691592101264"

/-- Step 5 (cli.py lines 147-167): the canonical query string before the
signature is appended.  `token.getD ""` is only reached under the
`access_key.startswith("ASIA")` guard, where the earlier `sys.exit` check
guarantees the token is present. -/
def canonical_querystring (access_key : String) (token : Option String)
    (amz_date scope : String) : String :=
  "X-Amz-Algorithm=" ++ "AWS4-HMAC-SHA256"
  ++ "&X-Amz-ChannelARN=" ++ pyQuote channelARN
  ++ "&X-Amz-Credential=" ++ pyQuote (access_key ++ "/" ++ scope)
  ++ "&X-Amz-Date=" ++ amz_date
  ++ "&X-Amz-Expires=300"
  ++ (if startsWithChars "ASIA".data access_key.data then
        "&X-Amz-Security-Token=" ++ pyReplace (pyQuote (token.getD "")) "=" "%253D"
      else "")
  ++ "&X-Amz-SignedHeaders=" ++ "host"

/-- Step 7 (cli.py lines 179-191): method, canonical URI `"/"`, query
string, canonical headers `host:<host>\n`, signed headers `host`, and the
payload hash, newline-joined. -/
def canonical_request (method host qs payload_hash : String) : String :=
  method ++ "\n" ++ "/" ++ "\n" ++ qs ++ "\n" ++ ("host:" ++ host ++ "\n")
    ++ "\n" ++ "host" ++ "\n" ++ payload_hash

/-- Step 8 (cli.py lines 197-205). -/
def string_to_sign {κ : Type} (H : HmacModel κ) (amz_date scope creq : String) :
    String :=
  "AWS4-HMAC-SHA256" ++ "\n" ++ amz_date ++ "\n" ++ scope ++ "\n"
    ++ H.sha256hex creq

/-- Steps 8-9 combined (cli.py lines 197-217): the signature is the hex
HMAC of the string-to-sign (which hashes the canonical request and hence
every preceding query parameter) under the derived signing key. -/
def signatureOf {κ : Type} (H : HmacModel κ)
    (method host qs sk datestamp region service amz_date : String) : String :=
  H.hexdigest (getSignatureKey H sk datestamp region service)
    (string_to_sign H amz_date (credentialScope datestamp region service)
      (canonical_request method host qs (H.sha256hex "")))

/-- Step 10 (cli.py line 223): the full query string — the signature
appended last, after all the parameters it was computed over. -/
def signedQueryFull {κ : Type} (H : HmacModel κ)
    (method host ak sk : String) (token : Option String)
    (amz_date datestamp region service : String) : String :=
  canonical_querystring ak token amz_date (credentialScope datestamp region service)
    ++ "&X-Amz-Signature="
    ++ signatureOf H method host
         (canonical_querystring ak token amz_date (credentialScope datestamp region service))
         sk datestamp region service amz_date

/-- `getSignedURL(method, service, region, host, endpoint)` (cli.py lines
82-226).  The ambient inputs of the source — the environment variables
`AWS_ACCESS_KEY_ID` / `AWS_SECRET_ACCESS_KEY` / `AWS_SESSION_TOKEN` and the
two `strftime` renderings of `datetime.datetime.utcnow()` — are explicit
parameters, and the two `sys.exit()` paths are the error results.  (The
near-duplicate of this function in `signaling.py` lines 16-133 is not
embedded: its Step-5 block is mis-indented into the `sys.exit()` branch and
its continuation backslashes are followed by a stray blank, so that module
is not even importable Python; cli.py carries the well-formed signer.) -/
def getSignedURL {κ : Type} (H : HmacModel κ)
    (method service region host endpoint : String)
    (access_key secret_key token : Option String)
    (amz_date datestamp : String) : Except SignErr String :=
  match access_key, secret_key with
  | some ak, some sk =>
      if startsWithChars "ASIA".data ak.data && token.isNone then
        .error .incompleteTemporaryCredentials
      else
        .ok (endpoint ++ "/" ++ "?"
          ++ signedQueryFull H method host ak sk token amz_date datestamp region
               service)
  | _, _ => .error .missingCredentials

example : pyQuote "abc=" = "abc%3D" := by decide
example : pyReplace "%3D" "=" "%253D" = "%3D" := by decide
example : pyQuote "a b/ä" = "a%20b%2F%C3%A4" := by decide

/-- The returned URL of a successful signing (empty on an error result). -/
def okString : Except SignErr String → String
  | .ok u => u
  | .error _ => ""

/-- A concrete instantiation of the external hash primitives, used to
evaluate the signer at concrete inputs; the structural theorems about
`getSignedURL` hold for every instantiation. -/
def trivialHmac : HmacModel Unit where
  utf8 := fun _ => ()
  digest := fun _ _ => ()
  hexdigest := fun _ _ => "0f"
  sha256hex := fun _ => "e3"

/-- C9: signing fails with `MissingCredentialsError` exactly when the access
key or the secret key is absent, with `IncompleteTemporaryCredentialsError`
exactly when both are present, the access key has the temporary-credential
`ASIA` prefix and no session token is supplied, and in every other case it
returns a URL. -/
theorem C9_signing_error_conditions {κ : Type} (H : HmacModel κ)
    (method service region host endpoint : String)
    (access_key secret_key token : Option String)
    (amz_date datestamp : String) :
    (getSignedURL H method service region host endpoint access_key secret_key
        token amz_date datestamp = .error .missingCredentials
      ↔ access_key = none ∨ secret_key = none)
    ∧ (getSignedURL H method service region host endpoint access_key secret_key
        token amz_date datestamp = .error .incompleteTemporaryCredentials
      ↔ ∃ ak, access_key = some ak ∧ secret_key ≠ none
          ∧ startsWithChars "ASIA".data ak.data = true ∧ token = none)
    ∧ ((∃ url, getSignedURL H method service region host endpoint access_key
          secret_key token amz_date datestamp = .ok url)
      ↔ ∃ ak, access_key = some ak ∧ secret_key ≠ none
          ∧ ¬(startsWithChars "ASIA".data ak.data = true ∧ token = none)) := by
  cases access_key with
  | none => simp [getSignedURL]
  | some ak =>
      cases secret_key with
      | none => simp [getSignedURL]
      | some sk =>
          by_cases hb : startsWithChars "ASIA".data ak.data && token.isNone
          · rw [Bool.and_eq_true, Option.isNone_iff_eq_none] at hb
            simp [getSignedURL, hb.1, hb.2]
          · rw [Bool.and_eq_true, Option.isNone_iff_eq_none] at hb
            push_neg at hb
            by_cases ha : startsWithChars "ASIA".data ak.data = true
            · simp [getSignedURL, ha, hb ha, Option.isNone_iff_eq_none]
            · simp [getSignedURL, ha, Option.isNone_iff_eq_none]

set_option maxRecDepth 4000 in
/-- C2 (evaluation of the code at its failing input): with an `ASIA` access
key and the session token `"abc="`, the token's `=` reaches the final query
as the single-encoded `%3D`: `urllib.parse.quote` has already rewritten `=`
to `%3D`, so the subsequent `.replace("=", "%253D")` (cli.py line 165)
finds no `=` and is a no-op, and no `%253D` appears anywhere in the URL. -/
theorem C2_token_not_double_encoded :
    pyReplace (pyQuote "abc=") "=" "%253D" = "abc%3D"
    ∧ exceptIsOk (getSignedURL trivialHmac "GET" "kinesisvideo" "eu-west-2"
        "example.com" "wss://example.com" (some "ASIAKEY") (some "sk")
        (some "abc=") "20251012T000000Z" "20251012") = true
    ∧ containsSub "X-Amz-Security-Token=abc%3D&".data
        (okString (getSignedURL trivialHmac "GET" "kinesisvideo" "eu-west-2"
          "example.com" "wss://example.com" (some "ASIAKEY") (some "sk")
          (some "abc=") "20251012T000000Z" "20251012")).data = true
    ∧ containsSub "%253D".data
        (okString (getSignedURL trivialHmac "GET" "kinesisvideo" "eu-west-2"
          "example.com" "wss://example.com" (some "ASIAKEY") (some "sk")
          (some "abc=") "20251012T000000Z" "20251012")).data = false := by
  refine ⟨by decide, by decide, by decide, by decide⟩

/-- `s.split("&")` on the query string. -/
def splitAmp : List Char → List (List Char)
  | [] => [[]]
  | c :: rest =>
      if c = '&' then [] :: splitAmp rest
      else
        match splitAmp rest with
        | [] => [[c]]
        | h :: t => (c :: h) :: t

/-- The key of one `k=v` query parameter: the text before the first `=`. -/
def keyOf : List Char → List Char
  | [] => []
  | c :: rest => if c = '=' then [] else c :: keyOf rest

/-- Strict lexicographic order on character lists by code point — the
ascending order SigV4 requires of query keys. -/
def lexLt : List Char → List Char → Bool
  | [], [] => false
  | [], _ :: _ => true
  | _ :: _, [] => false
  | a :: as, b :: bs =>
      Nat.blt a.toNat b.toNat || (a == b && lexLt as bs)

/-- The `&`-separated tail of a parameter join. -/
def joinAmpTail : List (List Char) → List Char
  | [] => []
  | p :: rest => '&' :: (p ++ joinAmpTail rest)

/-- The query string as the `&`-join of its parameters. -/
def joinAmp : List (List Char) → List Char
  | [] => []
  | p :: rest => p ++ joinAmpTail rest

theorem splitAmp_no_amp (x : List Char) (h : '&' ∉ x) : splitAmp x = [x] := by
  induction x with
  | nil => rfl
  | cons c rest ih =>
      simp only [List.mem_cons, not_or] at h
      rw [splitAmp, if_neg (Ne.symm h.1), ih h.2]

theorem splitAmp_append (x y : List Char) (h : '&' ∉ x) :
    splitAmp (x ++ '&' :: y) = x :: splitAmp y := by
  induction x with
  | nil =>
      simp [splitAmp]
  | cons c rest ih =>
      simp only [List.mem_cons, not_or] at h
      rw [List.cons_append, splitAmp, if_neg (Ne.symm h.1), ih h.2]

theorem splitAmp_join (ps : List (List Char)) (hne : ps ≠ [])
    (h : ∀ p ∈ ps, '&' ∉ p) : splitAmp (joinAmp ps) = ps := by
  induction ps with
  | nil => exact absurd rfl hne
  | cons p rest ih =>
      cases rest with
      | nil =>
          rw [joinAmp, joinAmpTail, List.append_nil,
              splitAmp_no_amp p (h p (List.mem_cons_self p []))]
      | cons q t =>
          rw [joinAmp, joinAmpTail,
              show (q ++ joinAmpTail t : List Char) = joinAmp (q :: t) from rfl,
              splitAmp_append p _ (h p (List.mem_cons_self p _)),
              ih (fun hh => List.noConfusion hh)
                (fun r hr => h r (List.mem_cons_of_mem p hr))]

theorem keyOf_append (k v : List Char) (h : '=' ∉ k) :
    keyOf (k ++ '=' :: v) = k := by
  induction k with
  | nil => simp [keyOf]
  | cons c rest ih =>
      simp only [List.mem_cons, not_or] at h
      rw [List.cons_append, keyOf, if_neg (Ne.symm h.1), ih h.2]

theorem char_toNat_lt (c : Char) : c.toNat < 1114112 := by
  rcases c.valid with h | ⟨h1, h2⟩
  · simp only [Char.toNat]
    omega
  · simp only [Char.toNat]
    omega

theorem utf8Bytes_lt (c : Char) : ∀ b ∈ utf8Bytes c, b < 256 := by
  intro b hb
  have hc := char_toNat_lt c
  unfold utf8Bytes at hb
  split at hb
  · simp only [List.mem_singleton] at hb
    omega
  · split at hb
    · have h1 : c.toNat / 0x40 < 0x20 := Nat.div_lt_of_lt_mul (by omega)
      have h2 : c.toNat % 0x40 < 0x40 := Nat.mod_lt _ (by omega)
      simp only [List.mem_cons, List.not_mem_nil, or_false] at hb
      rcases hb with rfl | rfl <;> omega
    · split at hb
      · have h1 : c.toNat / 0x1000 < 0x10 := Nat.div_lt_of_lt_mul (by omega)
        have h2 : (c.toNat / 0x40) % 0x40 < 0x40 := Nat.mod_lt _ (by omega)
        have h3 : c.toNat % 0x40 < 0x40 := Nat.mod_lt _ (by omega)
        simp only [List.mem_cons, List.not_mem_nil, or_false] at hb
        rcases hb with rfl | rfl | rfl <;> omega
      · have h1 : c.toNat / 0x40000 < 0x5 := Nat.div_lt_of_lt_mul (by omega)
        have h2 : (c.toNat / 0x1000) % 0x40 < 0x40 := Nat.mod_lt _ (by omega)
        have h3 : (c.toNat / 0x40) % 0x40 < 0x40 := Nat.mod_lt _ (by omega)
        have h4 : c.toNat % 0x40 < 0x40 := Nat.mod_lt _ (by omega)
        simp only [List.mem_cons, List.not_mem_nil, or_false] at hb
        rcases hb with rfl | rfl | rfl | rfl <;> omega

theorem hexDigit_ne_amp (m : Nat) (hm : m < 16) : hexDigit m ≠ '&' := by
  interval_cases m <;> decide

theorem hexDigit_ne_eq (m : Nat) (hm : m < 16) : hexDigit m ≠ '=' := by
  interval_cases m <;> decide

/-- No character that `pyQuote` emits is one of the reserved separators the
signed query relies on: the unescaped characters are unreserved and every
escape consists of `%` and uppercase hex digits. -/
theorem mem_quoteChars (x : Char) (l : List Char)
    (hx1 : isUnreserved x = false) (hx2 : x ≠ '%')
    (hx3 : ∀ m, m < 16 → hexDigit m ≠ x) : x ∉ pyQuote.quoteChars l := by
  induction l with
  | nil => simp [pyQuote.quoteChars]
  | cons c rest ih =>
      rw [pyQuote.quoteChars]
      intro hmem
      rcases List.mem_append.1 hmem with hl | hr
      · revert hl
        split
        · rename_i hu
          intro hl
          simp only [List.mem_singleton] at hl
          rw [← hl] at hu
          rw [hu] at hx1
          exact Bool.noConfusion hx1
        · intro hl
          rcases List.mem_flatten.1 hl with ⟨sub, hsub, hxin⟩
          rcases List.mem_map.1 hsub with ⟨b, hbin, rfl⟩
          have hb := utf8Bytes_lt c b hbin
          simp only [percentByte, List.mem_cons, List.not_mem_nil, or_false] at hxin
          rcases hxin with h | h | h
          · exact hx2 h
          · exact hx3 (b / 16) (Nat.div_lt_of_lt_mul (by omega)) h.symm
          · exact hx3 (b % 16) (Nat.mod_lt _ (by omega)) h.symm
      · exact ih hr

theorem pyQuote_no_amp (s : String) : '&' ∉ (pyQuote s).data :=
  mem_quoteChars '&' s.data (by decide) (by decide) (fun m hm => hexDigit_ne_amp m hm)

theorem pyQuote_no_eq (s : String) : '=' ∉ (pyQuote s).data :=
  mem_quoteChars '=' s.data (by decide) (by decide) (fun m hm => hexDigit_ne_eq m hm)

theorem pyReplaceAux_no_match (rep : List Char) (fuel : Nat) :
    ∀ l : List Char, '=' ∉ l → pyReplaceAux ['='] rep fuel l = l := by
  induction fuel with
  | zero => intro l _; rfl
  | succ f ih =>
      intro l hne
      cases l with
      | nil => rfl
      | cons c rest =>
          simp only [List.mem_cons, not_or] at hne
          rw [pyReplaceAux]
          have hc : (('=' == c) = false) := by
            simp only [beq_eq_false_iff_ne]
            exact hne.1
          rw [if_neg (by simp [startsWithChars, hc])]
          rw [ih rest hne.2]

/-- On a percent-encoded token no raw `=` remains, so the `.replace("=",
"%253D")` of cli.py line 165 is the identity. -/
theorem pyReplace_on_quoted (s : String) :
    pyReplace (pyQuote s) "=" "%253D" = pyQuote s := by
  unfold pyReplace pyReplaceChars
  rw [show ("=" : String).data = ['='] from rfl,
      pyReplaceAux_no_match _ _ _ (pyQuote_no_eq s)]

/-- The parameters of the canonical query string in the order the signer
emits them (cli.py lines 147-167), signature excluded. -/
def queryParams (access_key : String) (token : Option String)
    (amz_date scope : String) : List (List Char) :=
  [("X-Amz-Algorithm=" ++ "AWS4-HMAC-SHA256").data,
   ("X-Amz-ChannelARN=" ++ pyQuote channelARN).data,
   ("X-Amz-Credential=" ++ pyQuote (access_key ++ "/" ++ scope)).data,
   ("X-Amz-Date=" ++ amz_date).data,
   "X-Amz-Expires=300".data]
  ++ (if startsWithChars "ASIA".data access_key.data then
        [("X-Amz-Security-Token="
            ++ pyReplace (pyQuote (token.getD "")) "=" "%253D").data]
      else [])
  ++ [("X-Amz-SignedHeaders=" ++ "host").data]


set_option maxRecDepth 8192 in
theorem querystring_join (ak : String) (token : Option String)
    (amz_date scope sig : String) :
    (canonical_querystring ak token amz_date scope
      ++ "&X-Amz-Signature=" ++ sig).data
    = joinAmp (queryParams ak token amz_date scope
        ++ [("X-Amz-Signature=" ++ sig).data]) := by
  have h1 : "&X-Amz-ChannelARN=".data = '&' :: "X-Amz-ChannelARN=".data := rfl
  have h2 : "&X-Amz-Credential=".data = '&' :: "X-Amz-Credential=".data := rfl
  have h3 : "&X-Amz-Date=".data = '&' :: "X-Amz-Date=".data := rfl
  have h4 : "&X-Amz-Expires=300".data = '&' :: "X-Amz-Expires=300".data := rfl
  have h5 : "&X-Amz-Security-Token=".data
      = '&' :: "X-Amz-Security-Token=".data := rfl
  have h6 : "&X-Amz-SignedHeaders=".data
      = '&' :: "X-Amz-SignedHeaders=".data := rfl
  have h7 : "&X-Amz-Signature=".data = '&' :: "X-Amz-Signature=".data := rfl
  cases hASIA : startsWithChars "ASIA".data ak.data <;>
    simp [canonical_querystring, queryParams, hASIA, joinAmp, joinAmpTail,
          String.data_append, h1, h2, h3, h4, h5, h6, h7, List.append_assoc]

set_option maxRecDepth 8192 in
theorem queryParams_keys (ak : String) (token : Option String)
    (amz_date scope : String) :
    (queryParams ak token amz_date scope).map keyOf
      = ["X-Amz-Algorithm".data, "X-Amz-ChannelARN".data,
         "X-Amz-Credential".data, "X-Amz-Date".data, "X-Amz-Expires".data]
        ++ (if startsWithChars "ASIA".data ak.data then
              ["X-Amz-Security-Token".data]
            else [])
        ++ ["X-Amz-SignedHeaders".data] := by
  cases hASIA : startsWithChars "ASIA".data ak.data <;>
    simp [queryParams, hASIA, keyOf]

set_option maxRecDepth 8192 in
theorem queryParams_sorted (ak : String) (token : Option String)
    (amz_date scope : String) :
    List.Chain' (fun a b => lexLt a b = true)
      ((queryParams ak token amz_date scope).map keyOf) := by
  rw [queryParams_keys]
  cases hASIA : startsWithChars "ASIA".data ak.data <;>
    simp [hASIA, List.chain'_cons, List.chain'_singleton, lexLt, Nat.blt]

theorem no_amp_append (a b : String) (ha : '&' ∉ a.data) (hb : '&' ∉ b.data) :
    '&' ∉ (a ++ b).data := by
  rw [String.data_append]
  intro h
  rcases List.mem_append.1 h with h | h
  · exact ha h
  · exact hb h

set_option maxRecDepth 8192 in
theorem queryParams_no_amp (ak : String) (token : Option String)
    (amz_date scope : String) (hdate : '&' ∉ amz_date.data) :
    ∀ p ∈ queryParams ak token amz_date scope, '&' ∉ p := by
  intro p hp
  cases hASIA : startsWithChars "ASIA".data ak.data <;>
    simp only [queryParams, hASIA, Bool.false_eq_true, if_false, if_true,
      List.append_nil, List.nil_append, List.cons_append, List.mem_cons,
      List.not_mem_nil, or_false] at hp
  · rcases hp with rfl | rfl | rfl | rfl | rfl | rfl
    · decide
    · decide
    · exact no_amp_append _ _ (by decide) (pyQuote_no_amp _)
    · exact no_amp_append _ _ (by decide) hdate
    · decide
    · decide
  · rcases hp with rfl | rfl | rfl | rfl | rfl | rfl | rfl
    · decide
    · decide
    · exact no_amp_append _ _ (by decide) (pyQuote_no_amp _)
    · exact no_amp_append _ _ (by decide) hdate
    · decide
    · rw [pyReplace_on_quoted]
      exact no_amp_append _ _ (by decide) (pyQuote_no_amp _)
    · decide

set_option maxRecDepth 8192 in
/-- C3: in every URL `getSignedURL` returns, the query parameters preceding
the signature appear in strictly ascending lexicographic key order, and
`X-Amz-Signature` is appended last, its value computed (through the
string-to-sign of the canonical request) over the very query string formed
by all preceding parameters. -/
theorem C3_query_ordering {κ : Type} (H : HmacModel κ)
    (method service region host endpoint ak sk : String) (token : Option String)
    (amz_date datestamp : String)
    (hep : '?' ∉ endpoint.data)
    (hdate : '&' ∉ amz_date.data)
    (hsig : ∀ key msg, '&' ∉ (H.hexdigest key msg).data)
    (hcred : (startsWithChars "ASIA".data ak.data && token.isNone) = false) :
    getSignedURL H method service region host endpoint (some ak) (some sk) token
        amz_date datestamp
      = .ok (endpoint ++ "/" ++ "?"
          ++ signedQueryFull H method host ak sk token amz_date datestamp region
               service)
    ∧ dropThroughChar '?'
        (endpoint ++ "/" ++ "?"
          ++ signedQueryFull H method host ak sk token amz_date datestamp region
               service).data
      = some (signedQueryFull H method host ak sk token amz_date datestamp
          region service).data
    ∧ splitAmp (signedQueryFull H method host ak sk token amz_date datestamp
        region service).data
      = queryParams ak token amz_date (credentialScope datestamp region service)
        ++ [("X-Amz-Signature="
              ++ signatureOf H method host
                   (canonical_querystring ak token amz_date
                     (credentialScope datestamp region service))
                   sk datestamp region service amz_date).data]
    ∧ List.Chain' (fun a b => lexLt a b = true)
        ((queryParams ak token amz_date
            (credentialScope datestamp region service)).map keyOf) := by
  refine ⟨?_, ?_, ?_, queryParams_sorted ak token amz_date _⟩
  · simp [getSignedURL, hcred]
  · rw [show (endpoint ++ "/" ++ "?"
          ++ signedQueryFull H method host ak sk token amz_date datestamp region
               service).data
        = (endpoint.data ++ ['/'])
          ++ '?' :: (signedQueryFull H method host ak sk token amz_date datestamp
              region service).data by
        simp [String.data_append]]
    refine dropThroughChar_append '?' _ _ ?_
    intro hmem
    rcases List.mem_append.1 hmem with h | h
    · exact hep h
    · simp only [List.mem_singleton] at h
      exact absurd h (by decide)
  · rw [show signedQueryFull H method host ak sk token amz_date datestamp region
          service
        = canonical_querystring ak token amz_date
            (credentialScope datestamp region service)
          ++ "&X-Amz-Signature="
          ++ signatureOf H method host
               (canonical_querystring ak token amz_date
                 (credentialScope datestamp region service))
               sk datestamp region service amz_date from rfl,
        querystring_join]
    refine splitAmp_join _ (by simp) ?_
    intro p hp
    rcases List.mem_append.1 hp with h | h
    · exact queryParams_no_amp ak token amz_date _ hdate p h
    · simp only [List.mem_singleton] at h
      subst h
      exact no_amp_append _ _ (by decide) (hsig _ _)

set_option maxRecDepth 8192 in
/-- Witness for `C3_query_ordering`: its hypotheses discharged at concrete
inputs (temporary `ASIA` credentials with a token present). -/
theorem C3_query_ordering_witness :
    getSignedURL trivialHmac "GET" "kinesisvideo" "eu-west-2" "example.com"
        "wss://example.com" (some "ASIAKEY") (some "sk") (some "tok")
        "20251012T000000Z" "20251012"
      = .ok ("wss://example.com" ++ "/" ++ "?"
          ++ signedQueryFull trivialHmac "GET" "example.com" "ASIAKEY" "sk"
               (some "tok") "20251012T000000Z" "20251012" "eu-west-2"
               "kinesisvideo")
    ∧ dropThroughChar '?'
        ("wss://example.com" ++ "/" ++ "?"
          ++ signedQueryFull trivialHmac "GET" "example.com" "ASIAKEY" "sk"
               (some "tok") "20251012T000000Z" "20251012" "eu-west-2"
               "kinesisvideo").data
      = some (signedQueryFull trivialHmac "GET" "example.com" "ASIAKEY" "sk"
          (some "tok") "20251012T000000Z" "20251012" "eu-west-2"
          "kinesisvideo").data
    ∧ splitAmp (signedQueryFull trivialHmac "GET" "example.com" "ASIAKEY" "sk"
        (some "tok") "20251012T000000Z" "20251012" "eu-west-2"
        "kinesisvideo").data
      = queryParams "ASIAKEY" (some "tok") "20251012T000000Z"
          (credentialScope "20251012" "eu-west-2" "kinesisvideo")
        ++ [("X-Amz-Signature="
              ++ signatureOf trivialHmac "GET" "example.com"
                   (canonical_querystring "ASIAKEY" (some "tok")
                     "20251012T000000Z"
                     (credentialScope "20251012" "eu-west-2" "kinesisvideo"))
                   "sk" "20251012" "eu-west-2" "kinesisvideo"
                   "20251012T000000Z").data]
    ∧ List.Chain' (fun a b => lexLt a b = true)
        ((queryParams "ASIAKEY" (some "tok") "20251012T000000Z"
            (credentialScope "20251012" "eu-west-2" "kinesisvideo")).map keyOf) :=
  C3_query_ordering trivialHmac "GET" "kinesisvideo" "eu-west-2" "example.com"
    "wss://example.com" "ASIAKEY" "sk" (some "tok") "20251012T000000Z"
    "20251012" (by decide) (by decide)
    (fun _ _ => (by decide : '&' ∉ ("0f" : String).data)) (by decide)
